import Mathlib

/-!
Shallow embedding of `src/pglogical_ticker.c` (a PostgreSQL background
worker). The C file has three entry points:

* `pglogical_ticker_main` — the worker run loop: wait on the process latch
  (woken by SIGTERM/SIGHUP handlers, a timeout, or postmaster death), then
  unconditionally run one tick transaction; the `got_sigterm` flag is
  checked only at the top of the `while` loop.
* `_PG_init` — defines the three GUCs and, when shared-library preload is
  in progress and `pglogical_ticker.database` is set, statically registers
  `pglogical_ticker_total_workers` (= 1) background workers.
* `pglogical_ticker_launch` — registers a dynamic background worker,
  waits for the startup acknowledgement, and translates the status into a
  SQL-level result.

The embedding models each of these as a pure function; host facilities
(latch waits, signal delivery, the registry's accept/reject decision, the
startup-acknowledgement status, whether `SPI_execute` raises) appear as
explicit inputs.
-/

namespace PglogicalTicker

/-- C `INT_MAX`, the upper bound used for both integer GUCs. -/
def INT_MAX : Int := 2147483647

/-- An integer GUC as declared by `DefineCustomIntVariable`: boot value and
the inclusive `[minVal, maxVal]` range the GUC machinery enforces. -/
structure IntGuc where
  gucName : String
  boot : Int
  minVal : Int
  maxVal : Int
deriving DecidableEq

/-- The GUC machinery accepts an assignment iff it lies in the declared
range (this is what `DefineCustomIntVariable`'s min/max arguments enforce). -/
def IntGuc.accepts (g : IntGuc) (v : Int) : Bool :=
  decide (g.minVal ≤ v) && decide (v ≤ g.maxVal)

/-- `pglogical_ticker.naptime`: boot value 10, range 1 .. INT_MAX
(`DefineCustomIntVariable` call in `_PG_init`). -/
def naptimeGuc : IntGuc :=
  { gucName := "pglogical_ticker.naptime", boot := 10, minVal := 1, maxVal := INT_MAX }

/-- `pglogical_ticker.restart_time`: boot value 10, range -1 .. INT_MAX
(`DefineCustomIntVariable` call in `_PG_init`). -/
def restartTimeGuc : IntGuc :=
  { gucName := "pglogical_ticker.restart_time", boot := 10, minVal := -1, maxVal := INT_MAX }

/-- The C constant `pglogical_ticker_total_workers = 1`. -/
def pglogical_ticker_total_workers : Nat := 1

/-- The fields of the C `BackgroundWorker` descriptor that this module
fills in (oids modelled as `Nat`, pids as `Int`). -/
structure BackgroundWorker where
  bgw_name : String
  bgw_library_name : String
  bgw_function_name : String
  bgw_restart_time : Int
  bgw_main_arg : Nat
  bgw_notify_pid : Int
deriving DecidableEq

/-- The descriptor `_PG_init` registers for static worker number `i`
(`bgw_main_arg` is `Int32GetDatum(0)`, i.e. `InvalidOid`). -/
def staticWorker (restart_time : Int) (i : Nat) : BackgroundWorker :=
  { bgw_name := "pglogical_ticker worker " ++ toString i
  , bgw_library_name := "pglogical_ticker"
  , bgw_function_name := "pglogical_ticker_main"
  , bgw_restart_time := restart_time
  , bgw_main_arg := 0
  , bgw_notify_pid := 0 }

/-- `_PG_init` registration behaviour after the GUC definitions: return
immediately unless `process_shared_preload_libraries_in_progress`; register
the static workers only if `pglogical_ticker_database` is set.  Returns the
list of descriptors handed to `RegisterBackgroundWorker`. -/
def PG_init (process_shared_preload_libraries_in_progress : Bool)
    (pglogical_ticker_database : Option String)
    (pglogical_ticker_restart_time : Int) : List BackgroundWorker :=
  if process_shared_preload_libraries_in_progress then
    match pglogical_ticker_database with
    | some _ =>
        (List.range pglogical_ticker_total_workers).map
          (fun i => staticWorker pglogical_ticker_restart_time (i + 1))
    | none => []
  else []

/-- Which database `pglogical_ticker_main` connects to. -/
inductive ConnTarget where
  | byName (dbname : String)
  | byOid (oid : Nat)
deriving DecidableEq

/-- The connection choice at the top of `pglogical_ticker_main`: if the
`pglogical_ticker.database` GUC is set, connect by that name
(`BackgroundWorkerInitializeConnection`), else connect by the oid passed in
`main_arg` (`BackgroundWorkerInitializeConnectionByOid`). -/
def connectionTarget (pglogical_ticker_database : Option String)
    (db_oid_main : Nat) : ConnTarget :=
  match pglogical_ticker_database with
  | some dbname => ConnTarget.byName dbname
  | none => ConnTarget.byOid db_oid_main

/-! ### The worker main loop

State: the two `sig_atomic_t` flags set by the signal handlers.  One loop
iteration consumes a `CycleInput` describing what the host did while the
worker was blocked in `WaitLatch`: which signals were delivered, whether
the postmaster died (`WL_POSTMASTER_DEATH` in `rc`), and whether the tick
(`SPI_execute` and friends) raises an error this cycle. -/

/-- The signal-handler flags `got_sigterm` / `got_sighup`. -/
structure SigState where
  got_sigterm : Bool
  got_sighup : Bool
deriving DecidableEq

/-- Host events for one pass through the loop body. -/
structure CycleInput where
  deliver_sigterm : Bool
  deliver_sighup : Bool
  postmaster_death : Bool
  tick_raises : Bool
deriving DecidableEq

/-- Which `proc_exit(1)` site terminated the process. -/
inductive ExitReason where
  | postmasterDeath
  | sigtermLoopExit
deriving DecidableEq

/-- How an iteration can end the worker: a `proc_exit(code)` call, or an
error raised by the tick escaping `pglogical_ticker_main` (there is no
`PG_TRY` in the loop, so an `ERROR` from `SPI_execute` propagates out to
the bgworker machinery). -/
inductive CycleExit where
  | procExit (code : Nat) (reason : ExitReason)
  | errorEscape
deriving DecidableEq

/-- Observable outcome of one pass through the `while (!got_sigterm)` loop:
whether the tick transaction was started, whether `ProcessConfigFile` ran,
whether the process terminated, and the flag state left behind. -/
structure CycleResult where
  ticked : Bool
  reloaded : Bool
  cexit : Option CycleExit
  st : SigState
deriving DecidableEq

/-- One pass of `pglogical_ticker_main`'s loop, starting from the
`while (!got_sigterm)` test: if the flag is set, fall out of the loop to
`proc_exit(1)`; otherwise wait (during which the input's signals set the
flags), bail out on postmaster death, reload config on `got_sighup`, then
unconditionally run the tick transaction. -/
def runCycle (st : SigState) (inp : CycleInput) : CycleResult :=
  if st.got_sigterm then
    { ticked := false, reloaded := false
    , cexit := some (CycleExit.procExit 1 ExitReason.sigtermLoopExit), st := st }
  else
    let st1 : SigState :=
      { got_sigterm := st.got_sigterm || inp.deliver_sigterm
      , got_sighup := st.got_sighup || inp.deliver_sighup }
    if inp.postmaster_death then
      { ticked := false, reloaded := false
      , cexit := some (CycleExit.procExit 1 ExitReason.postmasterDeath), st := st1 }
    else
      let reloaded := st1.got_sighup
      let st2 : SigState := { st1 with got_sighup := false }
      if inp.tick_raises then
        { ticked := true, reloaded := reloaded
        , cexit := some CycleExit.errorEscape, st := st2 }
      else
        { ticked := true, reloaded := reloaded, cexit := none, st := st2 }

/-- Outcome of running the loop against a finite trace of host events. -/
inductive RunResult where
  | exited (code : Nat) (reason : ExitReason)
  | errored
  | running (st : SigState)
deriving DecidableEq

/-- Run `pglogical_ticker_main`'s loop over a trace of cycle inputs.  With
an exhausted trace the loop still performs its top-of-loop flag test, which
needs no host event to fall through to `proc_exit(1)`. -/
def runLoop (st : SigState) : List CycleInput → RunResult
  | [] =>
      if st.got_sigterm then RunResult.exited 1 ExitReason.sigtermLoopExit
      else RunResult.running st
  | inp :: rest =>
      let r := runCycle st inp
      match r.cexit with
      | some (CycleExit.procExit code reason) => RunResult.exited code reason
      | some CycleExit.errorEscape => RunResult.errored
      | none => runLoop r.st rest

/-! ### The dynamic launch protocol (`pglogical_ticker_launch`) -/

/-- The statuses `WaitForBackgroundWorkerStartup` can report (a closed
three-way result). -/
inductive BgwHandleStatus where
  | BGWH_STARTED
  | BGWH_STOPPED
  | BGWH_POSTMASTER_DIED
deriving DecidableEq

/-- SQLSTATE of the C macro `ERRCODE_INSUFFICIENT_RESOURCES`. -/
def ERRCODE_INSUFFICIENT_RESOURCES : String := "53000"

/-- An `ereport(ERROR, ...)` payload: errcode (SQLSTATE), message, hint. -/
structure SqlError where
  errcode : String
  errmsg : String
  errhint : String
deriving DecidableEq

/-- SQL-level result of `pglogical_ticker_launch`: `PG_RETURN_NULL()`, an
`ereport(ERROR, ...)`, or `PG_RETURN_INT32(pid)`. -/
inductive LaunchResult where
  | nullReturn
  | raised (e : SqlError)
  | pidReturn (pid : Int)
deriving DecidableEq

/-- Host-side behaviour observed by one `launch` call: whether
`RegisterDynamicBackgroundWorker` accepts the descriptor, and the status
and pid `WaitForBackgroundWorkerStartup` reports. -/
structure LaunchHost where
  register_ok : Bool
  startup_status : BgwHandleStatus
  startup_pid : Int
deriving DecidableEq

/-- The descriptor `pglogical_ticker_launch` builds: `bgw_main_arg` is the
argument oid, `bgw_notify_pid` is the caller's `MyProcPid`, and
`bgw_restart_time` is the current `pglogical_ticker.restart_time`. -/
def dynamicWorker (pglogical_ticker_restart_time : Int) (my_proc_pid : Int)
    (db_oid : Nat) : BackgroundWorker :=
  { bgw_name := "pglogical_ticker worker"
  , bgw_library_name := "pglogical_ticker"
  , bgw_function_name := "pglogical_ticker_main"
  , bgw_restart_time := pglogical_ticker_restart_time
  , bgw_main_arg := db_oid
  , bgw_notify_pid := my_proc_pid }

/-- What a `launch` call leaves behind: its SQL-level result and the
descriptor the host registry accepted, if any. -/
structure LaunchOutcome where
  result : LaunchResult
  registered : Option BackgroundWorker
deriving DecidableEq

/-- `pglogical_ticker_launch`: build the descriptor; if
`RegisterDynamicBackgroundWorker` fails, `PG_RETURN_NULL()`; otherwise wait
for startup and translate `BGWH_STOPPED` / `BGWH_POSTMASTER_DIED` into the
two `ereport(ERROR, ...)` calls (both with
`ERRCODE_INSUFFICIENT_RESOURCES`), and `BGWH_STARTED` into
`PG_RETURN_INT32(pid)`. -/
def pglogical_ticker_launch (pglogical_ticker_restart_time : Int)
    (my_proc_pid : Int) (host : LaunchHost) (db_oid : Nat) : LaunchOutcome :=
  let worker := dynamicWorker pglogical_ticker_restart_time my_proc_pid db_oid
  if !host.register_ok then
    { result := LaunchResult.nullReturn, registered := none }
  else
    match host.startup_status with
    | BgwHandleStatus.BGWH_STOPPED =>
        { result := LaunchResult.raised
            { errcode := ERRCODE_INSUFFICIENT_RESOURCES
            , errmsg := "could not start background process"
            , errhint := "More details may be available in the server log." }
        , registered := some worker }
    | BgwHandleStatus.BGWH_POSTMASTER_DIED =>
        { result := LaunchResult.raised
            { errcode := ERRCODE_INSUFFICIENT_RESOURCES
            , errmsg := "cannot start background processes without postmaster"
            , errhint := "Kill all remaining database processes and restart the database." }
        , registered := some worker }
    | BgwHandleStatus.BGWH_STARTED =>
        { result := LaunchResult.pidReturn host.startup_pid, registered := some worker }

/-! ### Theorems -/

/-- Every `proc_exit` reachable from the loop body passes status 1: both
the postmaster-death bailout and the fall-out-of-loop exit. -/
theorem runCycle_exit_code_one (st : SigState) (inp : CycleInput) (code : Nat)
    (r : ExitReason)
    (h : (runCycle st inp).cexit = some (CycleExit.procExit code r)) : code = 1 := by
  rcases st with ⟨a, b⟩
  rcases inp with ⟨t, u, p, e⟩
  cases a <;> cases b <;> cases t <;> cases u <;> cases p <;> cases e <;>
    simp [runCycle] at h <;> omega

/-- Claim C6: with a valid database identity, when the host registry
accepts the descriptor and the start-acknowledgement wait reports
`BGWH_STARTED` with process id `pid`, `pglogical_ticker_launch` returns
`pid` as its success value (`PG_RETURN_INT32(pid)`). -/
theorem C6_started_returns_pid (rt my_pid : Int) (host : LaunchHost) (db_oid : Nat)
    (h1 : host.register_ok = true)
    (h2 : host.startup_status = BgwHandleStatus.BGWH_STARTED) :
    (pglogical_ticker_launch rt my_pid host db_oid).result =
      LaunchResult.pidReturn host.startup_pid := by
  simp [pglogical_ticker_launch, h1, h2]

/-- Witness for C6: `STARTED(pid = 4242)` yields `4242`. -/
theorem C6_started_returns_pid_witness :
    (pglogical_ticker_launch 10 100
      { register_ok := true, startup_status := BgwHandleStatus.BGWH_STARTED
      , startup_pid := 4242 } 5).result = LaunchResult.pidReturn 4242 :=
  C6_started_returns_pid 10 100
    { register_ok := true, startup_status := BgwHandleStatus.BGWH_STARTED
    , startup_pid := 4242 } 5 rfl rfl

/-- Claim C7: whenever the worker's main loop terminates the process via
`proc_exit` — on the shutdown-request path (fall out of the loop) and on
the postmaster-death path alike — the exit status is 1, hence non-zero and
identical in both cases. -/
theorem C7_exit_status_nonzero (st : SigState) (inps : List CycleInput)
    (code : Nat) (r : ExitReason)
    (h : runLoop st inps = RunResult.exited code r) : code = 1 := by
  induction inps generalizing st with
  | nil =>
      unfold runLoop at h
      split at h
      · cases h; rfl
      · cases h
  | cons inp rest ih =>
      unfold runLoop at h
      cases hx : (runCycle st inp).cexit with
      | none => simp only [hx] at h; exact ih _ h
      | some ce =>
          cases ce with
          | procExit c re =>
              simp only [hx] at h
              injection h with h1 h2
              have hc := runCycle_exit_code_one st inp c re hx
              omega
          | errorEscape => simp [hx] at h

/-- Witness for C7: a postmaster-death wake terminates with status 1. -/
theorem C7_exit_status_nonzero_witness :
    runLoop { got_sigterm := false, got_sighup := false }
      [ { deliver_sigterm := false, deliver_sighup := false
        , postmaster_death := true, tick_raises := false } ] =
      RunResult.exited 1 ExitReason.postmasterDeath ∧ (1 : Nat) = 1 :=
  ⟨by decide,
   C7_exit_status_nonzero { got_sigterm := false, got_sighup := false }
     [ { deliver_sigterm := false, deliver_sighup := false
       , postmaster_death := true, tick_raises := false } ]
     1 ExitReason.postmasterDeath (by decide)⟩

/-- Claim C8: the connection target is the configured database name when
the `pglogical_ticker.database` GUC is set, else the launch-supplied oid;
a set GUC overrides the launch-supplied identity even for dynamically
launched workers (whose `bgw_main_arg` carries the oid given to launch). -/
theorem C8_connection_target_choice (db : Option String) (db_oid_main : Nat) :
    (∀ s, db = some s → connectionTarget db db_oid_main = ConnTarget.byName s) ∧
    (db = none → connectionTarget db db_oid_main = ConnTarget.byOid db_oid_main) ∧
    (∀ s rt mp oid, db = some s →
       connectionTarget db (dynamicWorker rt mp oid).bgw_main_arg =
         ConnTarget.byName s) := by
  refine ⟨fun s hs => ?_, fun hn => ?_, fun s rt mp oid hs => ?_⟩
  · simp [connectionTarget, hs]
  · simp [connectionTarget, hn]
  · simp [connectionTarget, hs]

/-- Witness for C8: a set GUC name wins; an unset GUC falls back to the
launch-supplied oid. -/
theorem C8_connection_target_choice_witness :
    connectionTarget (some "mydb") 7 = ConnTarget.byName "mydb" ∧
    connectionTarget none 7 = ConnTarget.byOid 7 :=
  ⟨(C8_connection_target_choice (some "mydb") 7).1 "mydb" rfl,
   (C8_connection_target_choice none 7).2.1 rfl⟩

/-- Claim C9: the GUC surface accepts `naptime` exactly on `[1, INT_MAX]`
and `restart_time` exactly on `[-1, INT_MAX]`; the configured restart time
is copied into `bgw_restart_time` unmodified for both the static and the
dynamic descriptor, and -1 is neither reinterpreted nor a reason to skip
registration (the static worker list is still non-empty, and launch still
submits the descriptor). -/
theorem C9_bounds_and_restart_passthrough :
    (∀ v : Int, naptimeGuc.accepts v = true ↔ 1 ≤ v ∧ v ≤ INT_MAX) ∧
    (∀ v : Int, restartTimeGuc.accepts v = true ↔ -1 ≤ v ∧ v ≤ INT_MAX) ∧
    (∀ db rt, ∀ w ∈ PG_init true (some db) rt, w.bgw_restart_time = rt) ∧
    (∀ db, PG_init true (some db) (-1) ≠ []) ∧
    (∀ rt mp oid, (dynamicWorker rt mp oid).bgw_restart_time = rt) ∧
    (∀ mp host oid, host.register_ok = true →
       (pglogical_ticker_launch (-1) mp host oid).registered =
         some (dynamicWorker (-1) mp oid)) := by
  refine ⟨fun v => ?_, fun v => ?_, fun db rt w hw => ?_, fun db => ?_,
    fun rt mp oid => rfl, fun mp host oid hreg => ?_⟩
  · simp [IntGuc.accepts, naptimeGuc]
  · simp [IntGuc.accepts, restartTimeGuc]
  · simp [PG_init, pglogical_ticker_total_workers, List.range_succ, List.range_zero] at hw
    simp [hw, staticWorker]
  · simp [PG_init, pglogical_ticker_total_workers, List.range_succ, List.range_zero]
  · cases hs : host.startup_status <;>
      simp [pglogical_ticker_launch, hreg, hs]

/-- Witness for C9: -1 is accepted for `restart_time`, rejected for
`naptime`; the static and dynamic descriptors carry -1 through; launch
with -1 still registers. -/
theorem C9_bounds_and_restart_passthrough_witness :
    restartTimeGuc.accepts (-1) = true ∧
    (staticWorker (-1) 1).bgw_restart_time = -1 ∧
    PG_init true (some "postgres") (-1) ≠ [] ∧
    (dynamicWorker (-1) 100 5).bgw_restart_time = -1 ∧
    (pglogical_ticker_launch (-1) 100
      { register_ok := true, startup_status := BgwHandleStatus.BGWH_STARTED
      , startup_pid := 1 } 5).registered = some (dynamicWorker (-1) 100 5) :=
  ⟨(C9_bounds_and_restart_passthrough.2.1 (-1)).mpr ⟨by decide, by decide⟩,
   C9_bounds_and_restart_passthrough.2.2.1 "postgres" (-1) (staticWorker (-1) 1)
     (by decide),
   C9_bounds_and_restart_passthrough.2.2.2.1 "postgres",
   C9_bounds_and_restart_passthrough.2.2.2.2.1 (-1) 100 5,
   C9_bounds_and_restart_passthrough.2.2.2.2.2 100
     { register_ok := true, startup_status := BgwHandleStatus.BGWH_STARTED
     , startup_pid := 1 } 5 rfl⟩

/-- Claim C10: `_PG_init` registers a static worker iff preload is in
progress and the database GUC is set; in that case exactly one worker is
registered and its `bgw_main_arg` (the launch-supplied database identity)
is 0, the invalid oid. -/
theorem C10_static_registration (preload : Bool) (db : Option String) (rt : Int) :
    (PG_init preload db rt ≠ [] ↔ preload = true ∧ db.isSome = true) ∧
    (preload = true → db.isSome = true → (PG_init preload db rt).length = 1) ∧
    (∀ w ∈ PG_init preload db rt, w.bgw_main_arg = 0) := by
  refine ⟨?_, fun hp hd => ?_, fun w hw => ?_⟩
  · cases preload <;> cases db <;>
      simp [PG_init, pglogical_ticker_total_workers, List.range_succ, List.range_zero]
  · subst hp
    cases db with
    | none => simp at hd
    | some s => simp [PG_init, pglogical_ticker_total_workers, List.range_succ, List.range_zero]
  · cases preload <;> cases db <;>
      simp [PG_init, pglogical_ticker_total_workers, List.range_succ, List.range_zero] at hw
    simp [hw, staticWorker]

/-- Witness for C10: with preload and a configured database, exactly one
worker is registered and it carries `bgw_main_arg = 0`. -/
theorem C10_static_registration_witness :
    (PG_init true (some "postgres") 10).length = 1 ∧
    (staticWorker 10 1).bgw_main_arg = 0 :=
  ⟨(C10_static_registration true (some "postgres") 10).2.1 rfl rfl,
   (C10_static_registration true (some "postgres") 10).2.2 (staticWorker 10 1)
     (by decide)⟩

/-- Counterexample to claim C1 as stated: start quiet, deliver SIGTERM
during the wait.  The `got_sigterm` test sits only at the top of the
`while` loop, so the woken iteration still runs its tick (`ticked = true`)
and only the next top-of-loop test reaches `proc_exit(1)`: a tick IS
executed between the shutdown wake and process termination. -/
theorem C1_counterexample :
    (runCycle { got_sigterm := false, got_sighup := false }
       { deliver_sigterm := true, deliver_sighup := false
       , postmaster_death := false, tick_raises := false }).ticked = true ∧
    runLoop { got_sigterm := false, got_sighup := false }
      [ { deliver_sigterm := true, deliver_sighup := false
        , postmaster_death := false, tick_raises := false } ] =
      RunResult.exited 1 ExitReason.sigtermLoopExit :=
  ⟨rfl, rfl⟩

/-- Claim C1 amended: delivering SIGTERM during a cycle's wait makes the
loop exit before beginning another wait, but only after the current
cycle's unit of work: that cycle still ticks and does not exit, its state
records the shutdown request, and the following iteration exits with
`proc_exit(1)` without ticking. -/
theorem C1_shutdown_exits_after_current_tick (st : SigState)
    (inp inp2 : CycleInput)
    (h1 : st.got_sigterm = false) (h2 : inp.deliver_sigterm = true)
    (h3 : inp.postmaster_death = false) (h4 : inp.tick_raises = false) :
    (runCycle st inp).ticked = true ∧ (runCycle st inp).cexit = none ∧
    (runCycle st inp).st.got_sigterm = true ∧
    (runCycle (runCycle st inp).st inp2).cexit =
      some (CycleExit.procExit 1 ExitReason.sigtermLoopExit) ∧
    (runCycle (runCycle st inp).st inp2).ticked = false := by
  rcases st with ⟨a, b⟩
  rcases inp with ⟨t, u, p, e⟩
  simp only at h1 h2 h3 h4
  subst h1; subst h2; subst h3; subst h4
  simp [runCycle]

/-- Witness for the amended C1, at the concrete inputs of the
counterexample followed by a quiet cycle. -/
theorem C1_shutdown_exits_after_current_tick_witness :
    (runCycle { got_sigterm := false, got_sighup := false }
       { deliver_sigterm := true, deliver_sighup := false
       , postmaster_death := false, tick_raises := false }).ticked = true ∧
    (runCycle { got_sigterm := false, got_sighup := false }
       { deliver_sigterm := true, deliver_sighup := false
       , postmaster_death := false, tick_raises := false }).cexit = none ∧
    (runCycle { got_sigterm := false, got_sighup := false }
       { deliver_sigterm := true, deliver_sighup := false
       , postmaster_death := false, tick_raises := false }).st.got_sigterm = true ∧
    (runCycle (runCycle { got_sigterm := false, got_sighup := false }
       { deliver_sigterm := true, deliver_sighup := false
       , postmaster_death := false, tick_raises := false }).st
       { deliver_sigterm := false, deliver_sighup := false
       , postmaster_death := false, tick_raises := false }).cexit =
      some (CycleExit.procExit 1 ExitReason.sigtermLoopExit) ∧
    (runCycle (runCycle { got_sigterm := false, got_sighup := false }
       { deliver_sigterm := true, deliver_sighup := false
       , postmaster_death := false, tick_raises := false }).st
       { deliver_sigterm := false, deliver_sighup := false
       , postmaster_death := false, tick_raises := false }).ticked = false :=
  C1_shutdown_exits_after_current_tick
    { got_sigterm := false, got_sighup := false }
    { deliver_sigterm := true, deliver_sighup := false
    , postmaster_death := false, tick_raises := false }
    { deliver_sigterm := false, deliver_sighup := false
    , postmaster_death := false, tick_raises := false } rfl rfl rfl rfl

/-- Counterexample to claim C2 as stated: deliver SIGHUP alone during a
quiet cycle's wait.  The cycle re-reads the configuration
(`reloaded = true`) but then still runs the tick (`ticked = true`): the
loop body performs a unit of work before returning to its wait, so a
reload signal alone does cause a unit-of-work execution. -/
theorem C2_counterexample :
    (runCycle { got_sigterm := false, got_sighup := false }
       { deliver_sigterm := false, deliver_sighup := true
       , postmaster_death := false, tick_raises := false }).reloaded = true ∧
    (runCycle { got_sigterm := false, got_sighup := false }
       { deliver_sigterm := false, deliver_sighup := true
       , postmaster_death := false, tick_raises := false }).ticked = true :=
  ⟨rfl, rfl⟩

/-- Claim C2 amended: on a reload signal (and no shutdown) the cycle
clears the flag and re-reads configuration before its unit of work, then
performs a tick in that same (early-woken) cycle and returns to the wait
with both flags clear; the loop keeps running. -/
theorem C2_reload_rereads_config_then_ticks (st : SigState) (inp : CycleInput)
    (h1 : st.got_sigterm = false) (h2 : inp.deliver_sigterm = false)
    (h3 : inp.deliver_sighup = true) (h4 : inp.postmaster_death = false)
    (h5 : inp.tick_raises = false) :
    (runCycle st inp).reloaded = true ∧
    (runCycle st inp).ticked = true ∧
    (runCycle st inp).cexit = none ∧
    (runCycle st inp).st = { got_sigterm := false, got_sighup := false } := by
  rcases st with ⟨a, b⟩
  rcases inp with ⟨t, u, p, e⟩
  simp only at h1 h2 h3 h4 h5
  subst h1; subst h2; subst h3; subst h4; subst h5
  simp [runCycle]

/-- Witness for the amended C2 at the counterexample's concrete input. -/
theorem C2_reload_rereads_config_then_ticks_witness :
    (runCycle { got_sigterm := false, got_sighup := false }
       { deliver_sigterm := false, deliver_sighup := true
       , postmaster_death := false, tick_raises := false }).reloaded = true ∧
    (runCycle { got_sigterm := false, got_sighup := false }
       { deliver_sigterm := false, deliver_sighup := true
       , postmaster_death := false, tick_raises := false }).ticked = true ∧
    (runCycle { got_sigterm := false, got_sighup := false }
       { deliver_sigterm := false, deliver_sighup := true
       , postmaster_death := false, tick_raises := false }).cexit = none ∧
    (runCycle { got_sigterm := false, got_sighup := false }
       { deliver_sigterm := false, deliver_sighup := true
       , postmaster_death := false, tick_raises := false }).st =
      { got_sigterm := false, got_sighup := false } :=
  C2_reload_rereads_config_then_ticks
    { got_sigterm := false, got_sighup := false }
    { deliver_sigterm := false, deliver_sighup := true
    , postmaster_death := false, tick_raises := false } rfl rfl rfl rfl rfl

/-- Counterexample to claim C3 as stated: a trace whose first cycle's tick
raises.  The loop has no `PG_TRY`, so the error escapes
`pglogical_ticker_main` and the run ends as `errored` instead of
proceeding to the second cycle's wait: an error in one tick does end the
worker's loop (the bgworker machinery then terminates the process, which
the restart policy may later restart). -/
theorem C3_counterexample :
    runLoop { got_sigterm := false, got_sighup := false }
      [ { deliver_sigterm := false, deliver_sighup := false
        , postmaster_death := false, tick_raises := true },
        { deliver_sigterm := false, deliver_sighup := false
        , postmaster_death := false, tick_raises := false } ] =
      RunResult.errored :=
  rfl

/-- Claim C3 amended: an error raised by a cycle's unit of work is not
caught inside the loop; it escapes `pglogical_ticker_main`, so the loop
does not proceed to the next cycle's wait and the worker's run ends
(recovery is left to the host's restart policy). -/
theorem C3_tick_error_escapes_loop (st : SigState) (inp : CycleInput)
    (h1 : st.got_sigterm = false) (h2 : inp.postmaster_death = false)
    (h3 : inp.tick_raises = true) :
    (runCycle st inp).cexit = some CycleExit.errorEscape ∧
    (∀ rest, runLoop st (inp :: rest) = RunResult.errored) := by
  rcases st with ⟨a, b⟩
  rcases inp with ⟨t, u, p, e⟩
  simp only at h1 h2 h3
  subst h1; subst h2; subst h3
  constructor
  · simp [runCycle]
  · intro rest
    simp [runLoop, runCycle]

/-- Witness for the amended C3 at the counterexample's failing input. -/
theorem C3_tick_error_escapes_loop_witness :
    (runCycle { got_sigterm := false, got_sighup := false }
       { deliver_sigterm := false, deliver_sighup := false
       , postmaster_death := false, tick_raises := true }).cexit =
      some CycleExit.errorEscape ∧
    runLoop { got_sigterm := false, got_sighup := false }
      [ { deliver_sigterm := false, deliver_sighup := false
        , postmaster_death := false, tick_raises := true } ] =
      RunResult.errored :=
  ⟨(C3_tick_error_escapes_loop
      { got_sigterm := false, got_sighup := false }
      { deliver_sigterm := false, deliver_sighup := false
      , postmaster_death := false, tick_raises := true } rfl rfl rfl).1,
   (C3_tick_error_escapes_loop
      { got_sigterm := false, got_sighup := false }
      { deliver_sigterm := false, deliver_sighup := false
      , postmaster_death := false, tick_raises := true } rfl rfl rfl).2 []⟩

/-- Counterexample to claim C4 as stated: when
`RegisterDynamicBackgroundWorker` fails immediately, the code executes
`PG_RETURN_NULL()` — launch returns SQL NULL, it does not raise any
error (in particular no resource-exhaustion error); no descriptor is
registered. -/
theorem C4_counterexample :
    (pglogical_ticker_launch 10 100
      { register_ok := false, startup_status := BgwHandleStatus.BGWH_STARTED
      , startup_pid := 0 } 5).result = LaunchResult.nullReturn ∧
    (pglogical_ticker_launch 10 100
      { register_ok := false, startup_status := BgwHandleStatus.BGWH_STARTED
      , startup_pid := 0 } 5).registered = none :=
  ⟨rfl, rfl⟩

/-- Claim C4 amended: when registration with the host registry fails
immediately, launch returns SQL NULL to the caller — not an error of any
kind — and leaves no side effects (no accepted registration). -/
theorem C4_register_fail_returns_null (rt mp : Int) (host : LaunchHost)
    (oid : Nat) (h : host.register_ok = false) :
    (pglogical_ticker_launch rt mp host oid).result = LaunchResult.nullReturn ∧
    (pglogical_ticker_launch rt mp host oid).registered = none ∧
    (∀ e, (pglogical_ticker_launch rt mp host oid).result ≠
      LaunchResult.raised e) := by
  simp [pglogical_ticker_launch, h]

/-- Witness for the amended C4 at the counterexample's input. -/
theorem C4_register_fail_returns_null_witness :
    (pglogical_ticker_launch 10 100
      { register_ok := false, startup_status := BgwHandleStatus.BGWH_STARTED
      , startup_pid := 0 } 5).result = LaunchResult.nullReturn ∧
    (pglogical_ticker_launch 10 100
      { register_ok := false, startup_status := BgwHandleStatus.BGWH_STARTED
      , startup_pid := 0 } 5).registered = none ∧
    (∀ e, (pglogical_ticker_launch 10 100
      { register_ok := false, startup_status := BgwHandleStatus.BGWH_STARTED
      , startup_pid := 0 } 5).result ≠ LaunchResult.raised e) :=
  C4_register_fail_returns_null 10 100
    { register_ok := false, startup_status := BgwHandleStatus.BGWH_STARTED
    , startup_pid := 0 } 5 rfl

/-- Counterexample to claim C5 as stated: the `BGWH_STOPPED` and the
`BGWH_POSTMASTER_DIED` branches of `pglogical_ticker_launch` both raise
an error with errcode `ERRCODE_INSUFFICIENT_RESOURCES` (SQLSTATE 53000).
The error classes are identical, not distinct — only the message and hint
differ. -/
theorem C5_counterexample :
    (pglogical_ticker_launch 10 100
      { register_ok := true, startup_status := BgwHandleStatus.BGWH_STOPPED
      , startup_pid := 0 } 5).result =
      LaunchResult.raised
        { errcode := "53000", errmsg := "could not start background process"
        , errhint := "More details may be available in the server log." } ∧
    (pglogical_ticker_launch 10 100
      { register_ok := true
      , startup_status := BgwHandleStatus.BGWH_POSTMASTER_DIED
      , startup_pid := 0 } 5).result =
      LaunchResult.raised
        { errcode := "53000"
        , errmsg := "cannot start background processes without postmaster"
        , errhint := "Kill all remaining database processes and restart the database." } :=
  ⟨rfl, rfl⟩

/-- Claim C5 amended: on `BGWH_POSTMASTER_DIED` launch raises an error
with a distinct message and hint from the `BGWH_STOPPED` case, but with
the same error code — both use `ERRCODE_INSUFFICIENT_RESOURCES`. -/
theorem C5_postmaster_died_same_errcode_distinct_message (rt mp : Int)
    (hostS hostP : LaunchHost) (oid : Nat)
    (hS1 : hostS.register_ok = true)
    (hS2 : hostS.startup_status = BgwHandleStatus.BGWH_STOPPED)
    (hP1 : hostP.register_ok = true)
    (hP2 : hostP.startup_status = BgwHandleStatus.BGWH_POSTMASTER_DIED) :
    ∃ eS eP : SqlError,
      (pglogical_ticker_launch rt mp hostS oid).result =
        LaunchResult.raised eS ∧
      (pglogical_ticker_launch rt mp hostP oid).result =
        LaunchResult.raised eP ∧
      eS.errcode = ERRCODE_INSUFFICIENT_RESOURCES ∧
      eP.errcode = eS.errcode ∧
      eP.errmsg ≠ eS.errmsg ∧ eP.errhint ≠ eS.errhint := by
  refine ⟨{ errcode := ERRCODE_INSUFFICIENT_RESOURCES
          , errmsg := "could not start background process"
          , errhint := "More details may be available in the server log." },
          { errcode := ERRCODE_INSUFFICIENT_RESOURCES
          , errmsg := "cannot start background processes without postmaster"
          , errhint := "Kill all remaining database processes and restart the database." },
          ?_, ?_, rfl, rfl, ?_, ?_⟩
  · simp [pglogical_ticker_launch, hS1, hS2, ERRCODE_INSUFFICIENT_RESOURCES]
  · simp [pglogical_ticker_launch, hP1, hP2, ERRCODE_INSUFFICIENT_RESOURCES]
  · decide
  · decide

/-- Witness for the amended C5 at concrete host reports. -/
theorem C5_postmaster_died_same_errcode_distinct_message_witness :
    ∃ eS eP : SqlError,
      (pglogical_ticker_launch 10 100
        { register_ok := true, startup_status := BgwHandleStatus.BGWH_STOPPED
        , startup_pid := 0 } 5).result = LaunchResult.raised eS ∧
      (pglogical_ticker_launch 10 100
        { register_ok := true
        , startup_status := BgwHandleStatus.BGWH_POSTMASTER_DIED
        , startup_pid := 0 } 5).result = LaunchResult.raised eP ∧
      eS.errcode = ERRCODE_INSUFFICIENT_RESOURCES ∧
      eP.errcode = eS.errcode ∧
      eP.errmsg ≠ eS.errmsg ∧ eP.errhint ≠ eS.errhint :=
  C5_postmaster_died_same_errcode_distinct_message 10 100
    { register_ok := true, startup_status := BgwHandleStatus.BGWH_STOPPED
    , startup_pid := 0 }
    { register_ok := true
    , startup_status := BgwHandleStatus.BGWH_POSTMASTER_DIED
    , startup_pid := 0 } 5 rfl rfl rfl rfl

end PglogicalTicker
